import Mathlib

/-!
Shallow embedding of the carbon metric forwarding client core
(`lib/carbon/client.py`) and the storage plugin layer
(`lib/carbon/database.py`), together with theorems settling the
specification's claims about them.

Conventions of the embedding:
* Python lists become `List`; the send queue is a `List Entry`.
* `instrumentation.increment(name)` counters become `Nat` fields of the
  session state (the instrumentation module is not part of the sources;
  the spec describes its counters as plain monotonic add-by-one).
* Writing a frame to the transport and firing an event are recorded in an
  output trace (`List Out`) returned alongside the new state.
* `pickle.dumps(datapoints, protocol=-1)` is modelled as a `Frame` value
  recording the protocol argument and the batch; the byte-level pickle
  encoding is external to the sources.
-/

/-- A metric name (a byte-string path in the source). -/
abbrev Metric := String

/-- A datapoint `(timestamp, value)`; the value is opaque to the client
path, modelled as an integer. -/
abbrev Datapoint := Nat × Int

/-- One send-queue entry: `(metric, datapoint)` as appended by
`CarbonClientFactory.enqueue`. -/
abbrev Entry := Metric × Datapoint

/-- The configuration options read by `client.py`:
`settings.MAX_QUEUE_SIZE`, `settings.MAX_DATAPOINTS_PER_MESSAGE` and
`settings.USE_FLOW_CONTROL`. -/
structure Settings where
  MAX_QUEUE_SIZE : Nat
  MAX_DATAPOINTS_PER_MESSAGE : Nat
  USE_FLOW_CONTROL : Bool
deriving Repr, DecidableEq

/-- The pickle protocol argument used at client.py:64 and client.py:71:
`protocol=-1` selects the highest available pickle protocol version. -/
def PICKLE_HIGHEST_PROTOCOL : Int := -1

/-- One length-prefixed frame handed to `self.sendString`: the serialized
batch. We record the pickle protocol argument and the batch itself; the
byte encoding performed by the external `pickle` module is opaque. -/
structure Frame where
  protocol : Int
  batch : List Entry
deriving Repr, DecidableEq

/-- `pickle.dumps(datapoints, protocol=p)` as a `Frame` value. -/
def pickle_dumps (datapoints : List Entry) (p : Int) : Frame :=
  ⟨p, datapoints⟩

/-- Observable outputs of a client operation: frames written to the
transport, the `queueEmpty` deferred firing (client.py:136), and the
process-wide flow-control events. -/
inductive Out where
  | frame (f : Frame)
  | queueEmptyFired
  | resumeReceivingFired
  | pauseReceivingFired
deriving Repr, DecidableEq

/-- The state of a live `CarbonClientProtocol`: its `paused` and
`connected` flags (client.py:21-22, 37-41). -/
structure ProtoState where
  paused : Bool
  connected : Bool
deriving Repr, DecidableEq

/-- The state of a `CarbonClientFactory` (one session): the send queue,
the optional connected protocol, and the per-destination counters
(client.py:96-105 and the protocol's `sent` counter). -/
structure Factory where
  queue : List Entry
  connectedProtocol : Option ProtoState
  attemptedRelays : Nat
  fullQueueDrops : Nat
  queuedUntilConnected : Nat
  queuedUntilReady : Nat
  sent : Nat
deriving Repr, DecidableEq

/-- The process-wide flow-control state `state.metricReceiversPaused`
read at client.py:76. -/
structure FlowState where
  metricReceiversPaused : Bool
deriving Repr, DecidableEq

/-- Result of a client operation: the new session state, the new
process-wide flow state, and the trace of outputs in order. -/
structure StepResult where
  factory : Factory
  flow : FlowState
  outs : List Out
deriving Repr, DecidableEq

/-- `CarbonClientFactory.enqueue` (client.py:139-140): append the entry
to the queue. Nothing else happens. -/
def enqueue (f : Factory) (metric : Metric) (datapoint : Datapoint) : Factory :=
  { f with queue := f.queue ++ [(metric, datapoint)] }

/-- `CarbonClientFactory.hasQueuedDatapoints` (client.py:126-127):
`bool(self.queue)`. -/
def hasQueuedDatapoints (f : Factory) : Bool :=
  !f.queue.isEmpty

/-- `CarbonClientFactory.queueSize` (client.py:122-124): `len(self.queue)`. -/
def queueSize (f : Factory) : Nat :=
  f.queue.length

/-- `CarbonClientFactory.takeSomeFromQueue` (client.py:129-132):
`datapoints = self.queue[:MAX_DATAPOINTS_PER_MESSAGE];
self.queue = self.queue[MAX_DATAPOINTS_PER_MESSAGE:]`. -/
def takeSomeFromQueue (s : Settings) (f : Factory) : List Entry × Factory :=
  (f.queue.take s.MAX_DATAPOINTS_PER_MESSAGE,
   { f with queue := f.queue.drop s.MAX_DATAPOINTS_PER_MESSAGE })

/-- `CarbonClientFactory.checkQueue` (client.py:134-137): when the queue
is empty, fire the `queueEmpty` deferred (and replace it by a fresh one,
which the trace model renders as simply emitting the event). -/
def checkQueue (f : Factory) : List Out :=
  if f.queue.isEmpty then [Out.queueEmptyFired] else []

/-- The float comparison `self.factory.queueSize < SEND_QUEUE_LOW_WATERMARK`
at client.py:77, with `SEND_QUEUE_LOW_WATERMARK = settings.MAX_QUEUE_SIZE * 0.8`
(client.py:15), modelled as the exact rational inequality
`5 * queueSize < 4 * MAX_QUEUE_SIZE`. -/
def belowLowWatermark (s : Settings) (n : Nat) : Bool :=
  5 * n < 4 * s.MAX_QUEUE_SIZE

/-- Modelled from the spec: `events.resumeReceivingMetrics()` called at
client.py:79 lives in `carbon/events.py`, which is not among the sources.
Per spec section 4.5 it fires the process-wide `resumeReceiving` event
and clears `metricReceiversPaused`. -/
def resumeReceivingMetrics (_g : FlowState) : FlowState × List Out :=
  (⟨false⟩, [Out.resumeReceivingFired])

/-- The while-loop of `CarbonClientProtocol.sendQueued` (client.py:69-73):
while not paused and the factory has queued datapoints, take a batch,
write one frame, run `checkQueue`, and add the batch length to `sent`.
The `fuel` argument bounds the number of iterations; `f.queue.length`
iterations always suffice when `MAX_DATAPOINTS_PER_MESSAGE ≥ 1` (with it
0 the Python loop would never terminate on a non-empty queue). -/
def sendQueuedLoop (s : Settings) (paused : Bool) : Nat → Factory → Factory × List Out
  | 0, f => (f, [])
  | fuel + 1, f =>
    if !paused && hasQueuedDatapoints f then
      let (datapoints, f1) := takeSomeFromQueue s f
      let frameOut := Out.frame (pickle_dumps datapoints PICKLE_HIGHEST_PROTOCOL)
      let emptyOut := checkQueue f1
      let f2 := { f1 with sent := f1.sent + datapoints.length }
      let (f3, rest) := sendQueuedLoop s paused fuel f2
      (f3, frameOut :: (emptyOut ++ rest))
    else
      (f, [])

/-- `CarbonClientProtocol.sendQueued` (client.py:68-79): drain the queue
while writable, then, when `USE_FLOW_CONTROL` is set, receivers are
paused, and the queue size is below the low watermark, resume the paused
receivers. `paused` is the protocol's flag. -/
def sendQueued (s : Settings) (paused : Bool) (f : Factory) (g : FlowState) : StepResult :=
  let (f1, outs) := sendQueuedLoop s paused f.queue.length f
  if s.USE_FLOW_CONTROL && g.metricReceiversPaused
      && belowLowWatermark s (queueSize f1) then
    let (g1, outs2) := resumeReceivingMetrics g
    ⟨f1, g1, outs ++ outs2⟩
  else
    ⟨f1, g, outs⟩

/-- `CarbonClientProtocol.sendDatapoint` (client.py:53-66). `p` is the
protocol state. When paused: enqueue and count `queuedUntilReady`. When
the factory has queued datapoints: enqueue then `sendQueued`. Otherwise:
write one frame with the one-element batch, count `sent`, `checkQueue`. -/
def protocolSendDatapoint (s : Settings) (p : ProtoState) (f : Factory)
    (g : FlowState) (metric : Metric) (datapoint : Datapoint) : StepResult :=
  if p.paused then
    let f1 := enqueue f metric datapoint
    ⟨{ f1 with queuedUntilReady := f1.queuedUntilReady + 1 }, g, []⟩
  else if hasQueuedDatapoints f then
    let f1 := enqueue f metric datapoint
    sendQueued s p.paused f1 g
  else
    let frameOut := Out.frame (pickle_dumps [(metric, datapoint)] PICKLE_HIGHEST_PROTOCOL)
    let f1 := { f with sent := f.sent + 1 }
    ⟨f1, g, frameOut :: checkQueue f1⟩

/-- `CarbonClientFactory.sendDatapoint` (client.py:142-151): always count
`attemptedRelays`; with a full queue drop the new datapoint and count
`fullQueueDrops`; with a connected protocol delegate to it; otherwise
enqueue and count `queuedUntilConnected`. -/
def factorySendDatapoint (s : Settings) (f : Factory) (g : FlowState)
    (metric : Metric) (datapoint : Datapoint) : StepResult :=
  let f0 := { f with attemptedRelays := f.attemptedRelays + 1 }
  if s.MAX_QUEUE_SIZE ≤ f0.queue.length then
    ⟨{ f0 with fullQueueDrops := f0.fullQueueDrops + 1 }, g, []⟩
  else
    match f0.connectedProtocol with
    | some p => protocolSendDatapoint s p f0 g metric datapoint
    | none =>
        let f1 := enqueue f0 metric datapoint
        ⟨{ f1 with queuedUntilConnected := f1.queuedUntilConnected + 1 }, g, []⟩

/-- A destination `(host, port, instance)` (client.py:90-92), the key of
`CarbonClientManager.client_factories`. -/
abbrev Destination := String × Nat × String

/-- Lookup in the `client_factories` dict, modelled as an association
list; `none` corresponds to a `KeyError` on `self.client_factories[destination]`. -/
def lookupFactory : List (Destination × Factory) → Destination → Option Factory
  | [], _ => none
  | (k, f) :: rest, dest => if k = dest then some f else lookupFactory rest dest

/-- Replace the factory stored under `dest` (the state mutation performed
through `self.client_factories[destination].sendDatapoint(...)`). -/
def updateFactory (fs : List (Destination × Factory)) (dest : Destination)
    (f : Factory) : List (Destination × Factory) :=
  fs.map fun df => if df.1 = dest then (df.1, f) else df

/-- Result of `CarbonClientManager.sendDatapoint`: the updated factories,
flow state and outputs, plus `keyError = some d` when the loop aborted
with a `KeyError` on destination `d`. -/
structure ManagerResult where
  factories : List (Destination × Factory)
  flow : FlowState
  outs : List Out
  keyError : Option Destination
deriving Repr, DecidableEq

/-- The loop body of `CarbonClientManager.sendDatapoint` (client.py:237-239):
`for destination in self.router.getDestinations(metric):
  self.client_factories[destination].sendDatapoint(metric, datapoint)`.
A destination missing from `client_factories` raises `KeyError`, which
aborts the loop: destinations after it are not reached. -/
def managerSendLoop (s : Settings) (metric : Metric) (datapoint : Datapoint) :
    List (Destination × Factory) → FlowState → List Destination → ManagerResult
  | fs, g, [] => ⟨fs, g, [], none⟩
  | fs, g, dest :: rest =>
    match lookupFactory fs dest with
    | none => ⟨fs, g, [], some dest⟩
    | some f =>
        let r := factorySendDatapoint s f g metric datapoint
        let r2 := managerSendLoop s metric datapoint (updateFactory fs dest r.factory) r.flow rest
        ⟨r2.factories, r2.flow, r.outs ++ r2.outs, r2.keyError⟩

/-- `CarbonClientManager.sendDatapoint` (client.py:237-239), with the
router abstracted as the function `getDestinations`. -/
def managerSendDatapoint (s : Settings) (getDestinations : Metric → List Destination)
    (fs : List (Destination × Factory)) (g : FlowState)
    (metric : Metric) (datapoint : Datapoint) : ManagerResult :=
  managerSendLoop s metric datapoint fs g (getDestinations metric)

/-!  The storage plugin layer (`lib/carbon/database.py`). -/

/-- The Python exceptions raised on the metadata and archive-validation
paths: `ValueError(msg)` and `KeyError(key)`. -/
inductive DbError where
  | valueError (msg : String)
  | keyError (key : String)
deriving Repr, DecidableEq

/-- Whether a result is the unsupported-metadata `ValueError` (the spec's
`UnsupportedMetadata`, surfaced to the caller as a value-error). -/
def raisesValueError {α : Type} : Except DbError α → Bool
  | .error (.valueError _) => true
  | _ => false

/-- The message of `WhisperDatabase`'s unsupported-metadata `ValueError`
(database.py:144 and database.py:151). -/
def unsupportedMetadataMsg (key : String) : String :=
  "Unsupported metadata key \"" ++ key ++ "\""

/-- `WhisperDatabase.getMetadata` (database.py:142-147): any key other
than `aggregationMethod` raises `ValueError`; otherwise the value comes
from the external call `whisper.info(path)['aggregationMethod']`,
abstracted as the function `aggInfo`. -/
def whisperGetMetadata (aggInfo : String → String) (metric key : String) :
    Except DbError String :=
  if key ≠ "aggregationMethod" then
    .error (.valueError (unsupportedMetadataMsg key))
  else
    .ok (aggInfo metric)

/-- `WhisperDatabase.setMetadata` (database.py:149-154): any key other
than `aggregationMethod` raises `ValueError`; otherwise the external call
`whisper.setAggregationMethod(path, value)` runs, abstracted as success. -/
def whisperSetMetadata (metric key value : String) : Except DbError Unit :=
  if key ≠ "aggregationMethod" then
    .error (.valueError (unsupportedMetadataMsg key))
  else
    .ok ()

/-- `CeresDatabase.getMetadata` (database.py:204-205):
`readMetadata()[key]` with no key validation; the node's metadata mapping
is abstracted as an association list, and a missing key raises `KeyError`. -/
def ceresGetMetadata (metadata : List (String × String)) (key : String) :
    Except DbError String :=
  match metadata.lookup key with
  | some v => .ok v
  | none => .error (.keyError key)

/-- `CeresDatabase.setMetadata` (database.py:207-211): read the metadata
mapping, set `metadata[key] = value` unconditionally, write it back. No
key is ever rejected. -/
def ceresSetMetadata (metadata : List (String × String)) (key value : String) :
    Except DbError (List (String × String)) :=
  if (metadata.lookup key).isSome then
    .ok (metadata.map fun kv => if kv.1 = key then (kv.1, value) else kv)
  else
    .ok (metadata ++ [(key, value)])

/-- A whisper archive list: `(secondsPerPoint, pointCount)` pairs. -/
abbrev ArchiveList := List (Nat × Nat)

/-- `WhisperDatabase.validateArchiveList` (database.py:159-163): call the
external `whisper.validateArchiveList`, catch `whisper.InvalidConfiguration`
and re-raise it as `ValueError("%s" % e)`. The external check is
abstracted as the oracle `wValidate`, returning `some reason` exactly when
the retentions are incompatible. -/
def whisperValidateArchiveList (wValidate : ArchiveList → Option String)
    (archiveList : ArchiveList) : Except DbError Unit :=
  match wValidate archiveList with
  | some msg => .error (.valueError msg)
  | none => .ok ()

/-- `TimeSeriesDatabase.validateArchiveList` (database.py:58-60): the base
implementation is `pass` — every archive list is accepted. `CeresDatabase`
does not override it. -/
def baseValidateArchiveList (_archiveList : ArchiveList) : Except DbError Unit :=
  .ok ()

/-- The reason carried by a `ValueError` result, `none` on success or on
another error kind. -/
def errorReason {α : Type} : Except DbError α → Option String
  | .error (.valueError msg) => some msg
  | _ => none

/-- Whether a database call returned normally. -/
def dbOk {α : Type} : Except DbError α → Bool
  | .ok _ => true
  | .error _ => false

/-!  Helper lemmas about the drain loop and output traces. -/

/-- Number of occurrences of an output in a trace. -/
def countOut (o : Out) (outs : List Out) : Nat :=
  outs.countP (fun x => x == o)

/-- The factory state after one iteration of the drain loop: one batch
detached from the head of the queue and its length added to `sent`. -/
def afterBatch (s : Settings) (f : Factory) : Factory :=
  { f with
    queue := f.queue.drop s.MAX_DATAPOINTS_PER_MESSAGE,
    sent := f.sent + (f.queue.take s.MAX_DATAPOINTS_PER_MESSAGE).length }

theorem countOut_append (o : Out) (l1 l2 : List Out) :
    countOut o (l1 ++ l2) = countOut o l1 + countOut o l2 := by
  simp [countOut, List.countP_append]

theorem sendQueuedLoop_zero (s : Settings) (paused : Bool) (f : Factory) :
    sendQueuedLoop s paused 0 f = (f, []) := rfl

theorem sendQueuedLoop_stop (s : Settings) (paused : Bool) (fuel : Nat)
    (f : Factory) (h : (!paused && hasQueuedDatapoints f) = false) :
    sendQueuedLoop s paused (fuel + 1) f = (f, []) := by
  simp [sendQueuedLoop, h]

theorem sendQueuedLoop_sending (s : Settings) (paused : Bool) (fuel : Nat)
    (f : Factory) (h : (!paused && hasQueuedDatapoints f) = true) :
    sendQueuedLoop s paused (fuel + 1) f =
      ((sendQueuedLoop s paused fuel (afterBatch s f)).1,
       Out.frame (pickle_dumps (f.queue.take s.MAX_DATAPOINTS_PER_MESSAGE)
           PICKLE_HIGHEST_PROTOCOL)
         :: (checkQueue (afterBatch s f)
             ++ (sendQueuedLoop s paused fuel (afterBatch s f)).2)) := by
  simp [sendQueuedLoop, h, takeSomeFromQueue, afterBatch, checkQueue]

/-- A drain loop on an empty queue does nothing. -/
theorem sendQueuedLoop_empty (s : Settings) (paused : Bool) (fuel : Nat)
    (f : Factory) (h : f.queue = []) :
    sendQueuedLoop s paused fuel f = (f, []) := by
  cases fuel with
  | zero => rfl
  | succ n =>
      apply sendQueuedLoop_stop
      simp [hasQueuedDatapoints, h]

/-- The drain loop never grows the queue. -/
theorem sendQueuedLoop_shrinks (s : Settings) (paused : Bool) (fuel : Nat) :
    ∀ f : Factory,
      (sendQueuedLoop s paused fuel f).1.queue.length ≤ f.queue.length := by
  induction fuel with
  | zero => intro f; simp [sendQueuedLoop]
  | succ n ih =>
      intro f
      by_cases h : (!paused && hasQueuedDatapoints f) = true
      · rw [sendQueuedLoop_sending s paused n f h]
        refine le_trans (ih (afterBatch s f)) ?_
        simp [afterBatch]
      · rw [sendQueuedLoop_stop s paused n f (by simpa using h)]

/-- The drain loop emits only frames and `queueEmpty` firings. -/
theorem sendQueuedLoop_outs (s : Settings) (paused : Bool) (fuel : Nat) :
    ∀ f : Factory, ∀ o ∈ (sendQueuedLoop s paused fuel f).2,
      o = Out.queueEmptyFired ∨ ∃ fr, o = Out.frame fr := by
  induction fuel with
  | zero => intro f o ho; simp [sendQueuedLoop] at ho
  | succ n ih =>
      intro f o ho
      by_cases h : (!paused && hasQueuedDatapoints f) = true
      · rw [sendQueuedLoop_sending s paused n f h] at ho
        simp only [List.mem_cons, List.mem_append] at ho
        rcases ho with ho | ho | ho
        · exact Or.inr ⟨_, ho⟩
        · unfold checkQueue at ho
          split at ho <;> simp at ho
          exact Or.inl ho
        · exact ih (afterBatch s f) o ho
      · rw [sendQueuedLoop_stop s paused n f (by simpa using h)] at ho
        simp at ho

/-- C1: when the queue already holds at least `MAX_QUEUE_SIZE` entries,
`CarbonClientFactory.sendDatapoint` drops the new datapoint: the queue
(and every other field except the two counters) is unchanged, no frame or
event is emitted, `fullQueueDrops` and `attemptedRelays` each grow by 1. -/
theorem C1_full_queue_drops_new_datapoint (s : Settings) (f : Factory)
    (g : FlowState) (metric : Metric) (datapoint : Datapoint)
    (h : s.MAX_QUEUE_SIZE ≤ f.queue.length) :
    factorySendDatapoint s f g metric datapoint =
      ⟨{ f with attemptedRelays := f.attemptedRelays + 1,
                fullQueueDrops := f.fullQueueDrops + 1 }, g, []⟩ := by
  simp [factorySendDatapoint, h]

/-- Witness for C1 at a concrete full-queue session. -/
theorem C1_witness :
    (2 : Nat) ≤ (Factory.mk [("a", (1, 1)), ("b", (2, 2))] none 0 0 0 0 0).queue.length ∧
    factorySendDatapoint ⟨2, 3, false⟩
        (Factory.mk [("a", (1, 1)), ("b", (2, 2))] none 0 0 0 0 0) ⟨false⟩ "c" (3, 3) =
      ⟨Factory.mk [("a", (1, 1)), ("b", (2, 2))] none 1 1 0 0 0, ⟨false⟩, []⟩ :=
  ⟨by decide,
   C1_full_queue_drops_new_datapoint ⟨2, 3, false⟩
     (Factory.mk [("a", (1, 1)), ("b", (2, 2))] none 0 0 0 0 0) ⟨false⟩ "c" (3, 3)
     (by decide)⟩

/-- Unfolded form of `sendQueued`: the factory is always the drain-loop
result; the flow state and trace get the resume step exactly when the
flow-control condition at client.py:75-77 holds. -/
theorem sendQueued_eq (s : Settings) (paused : Bool) (f : Factory) (g : FlowState) :
    sendQueued s paused f g =
      ⟨(sendQueuedLoop s paused f.queue.length f).1,
       (if s.USE_FLOW_CONTROL && g.metricReceiversPaused
            && belowLowWatermark s
                 (queueSize (sendQueuedLoop s paused f.queue.length f).1)
        then (⟨false⟩ : FlowState) else g),
       (sendQueuedLoop s paused f.queue.length f).2 ++
         (if s.USE_FLOW_CONTROL && g.metricReceiversPaused
              && belowLowWatermark s
                   (queueSize (sendQueuedLoop s paused f.queue.length f).1)
          then [Out.resumeReceivingFired] else [])⟩ := by
  unfold sendQueued resumeReceivingMetrics
  rcases hl : sendQueuedLoop s paused f.queue.length f with ⟨f1, outs⟩
  simp only [hl]
  split <;> simp

/-- The factory left by `sendQueued` is the one left by the drain loop,
so `sendQueued` never grows the queue. -/
theorem sendQueued_shrinks (s : Settings) (paused : Bool) (f : Factory)
    (g : FlowState) :
    (sendQueued s paused f g).factory.queue.length ≤ f.queue.length := by
  rw [sendQueued_eq]
  exact sendQueuedLoop_shrinks s paused f.queue.length f

/-- The protocol's `sendDatapoint` grows the queue by at most one entry. -/
theorem protocolSend_queue_le (s : Settings) (p : ProtoState) (f : Factory)
    (g : FlowState) (metric : Metric) (datapoint : Datapoint) :
    (protocolSendDatapoint s p f g metric datapoint).factory.queue.length
      ≤ f.queue.length + 1 := by
  unfold protocolSendDatapoint
  by_cases hp : p.paused = true
  · simp [hp, enqueue]
  · rw [Bool.not_eq_true] at hp
    by_cases hq : hasQueuedDatapoints f = true
    · have hs := sendQueued_shrinks s p.paused (enqueue f metric datapoint) g
      rw [hp] at hs
      simp [hp, hq]
      simpa [enqueue] using hs
    · simp [hp, hq]

/-- C2 counterexample: `CarbonClientProtocol.sendDatapoint`, called
directly (one of the claim's listed public operations) on a paused
protocol whose factory queue already holds `MAX_QUEUE_SIZE = 1` entries,
enqueues unconditionally and leaves the queue at 2 > `MAX_QUEUE_SIZE`. -/
theorem C2_counterexample :
    (Factory.mk [("a", (1, 1))] (some ⟨true, true⟩) 0 0 0 0 0).queue.length
        ≤ (Settings.mk 1 3 false).MAX_QUEUE_SIZE ∧
    (Settings.mk 1 3 false).MAX_QUEUE_SIZE <
      (protocolSendDatapoint ⟨1, 3, false⟩ ⟨true, true⟩
          (Factory.mk [("a", (1, 1))] (some ⟨true, true⟩) 0 0 0 0 0)
          ⟨false⟩ "b" (2, 2)).factory.queue.length := by
  constructor
  · decide
  · simp [protocolSendDatapoint, enqueue]

/-- C2 (amended): the queue bound `len(queue) ≤ MAX_QUEUE_SIZE` is
preserved by the operations reached through the factory —
`CarbonClientFactory.sendDatapoint` (and the enqueues and protocol send
inside it) and `CarbonClientProtocol.sendQueued`. The protocol's
`sendDatapoint` preserves it only when reached through the factory's
full-queue guard, not as a standalone entry point. -/
theorem C2_queue_bounded (s : Settings) (f : Factory) (g : FlowState)
    (paused : Bool) (metric : Metric) (datapoint : Datapoint)
    (h : f.queue.length ≤ s.MAX_QUEUE_SIZE) :
    (factorySendDatapoint s f g metric datapoint).factory.queue.length
        ≤ s.MAX_QUEUE_SIZE ∧
    (sendQueued s paused f g).factory.queue.length ≤ s.MAX_QUEUE_SIZE := by
  refine ⟨?_, le_trans (sendQueued_shrinks s paused f g) h⟩
  unfold factorySendDatapoint
  by_cases hfull : s.MAX_QUEUE_SIZE ≤ f.queue.length
  · simpa [hfull] using h
  · have hlt : f.queue.length < s.MAX_QUEUE_SIZE := Nat.lt_of_not_le hfull
    simp only [if_neg hfull]
    cases hc : f.connectedProtocol with
    | none =>
        show (f.queue ++ [(metric, datapoint)]).length ≤ s.MAX_QUEUE_SIZE
        simp
        omega
    | some p =>
        refine le_trans (protocolSend_queue_le s p _ g metric datapoint) ?_
        show f.queue.length + 1 ≤ s.MAX_QUEUE_SIZE
        omega

/-- Witness for C2 at a concrete bounded session. -/
theorem C2_witness :
    (Factory.mk [("a", (1, 1))] none 0 0 0 0 0).queue.length
        ≤ (Settings.mk 1 3 false).MAX_QUEUE_SIZE ∧
    ((factorySendDatapoint ⟨1, 3, false⟩ (Factory.mk [("a", (1, 1))] none 0 0 0 0 0)
          ⟨false⟩ "b" (2, 2)).factory.queue.length
        ≤ (Settings.mk 1 3 false).MAX_QUEUE_SIZE ∧
      (sendQueued ⟨1, 3, false⟩ false (Factory.mk [("a", (1, 1))] none 0 0 0 0 0)
          ⟨false⟩).factory.queue.length ≤ (Settings.mk 1 3 false).MAX_QUEUE_SIZE) :=
  ⟨by decide,
   C2_queue_bounded ⟨1, 3, false⟩ (Factory.mk [("a", (1, 1))] none 0 0 0 0 0)
     ⟨false⟩ false "b" (2, 2) (by decide)⟩

/-- The drain loop never fires `pauseReceiving`. -/
theorem sendQueuedLoop_no_pause (s : Settings) (paused : Bool) (fuel : Nat)
    (f : Factory) :
    countOut Out.pauseReceivingFired (sendQueuedLoop s paused fuel f).2 = 0 := by
  rw [countOut, List.countP_eq_zero]
  intro o ho
  rcases sendQueuedLoop_outs s paused fuel f o ho with h | ⟨fr, h⟩ <;> simp [h]

/-- `sendQueued` never fires `pauseReceiving`. -/
theorem sendQueued_no_pause (s : Settings) (paused : Bool) (f : Factory)
    (g : FlowState) :
    countOut Out.pauseReceivingFired (sendQueued s paused f g).outs = 0 := by
  rw [sendQueued_eq]
  dsimp only
  rw [countOut_append, sendQueuedLoop_no_pause]
  split <;> simp [countOut]

/-- `sendQueued` never raises `metricReceiversPaused`: it either keeps
the flow state or clears the flag. -/
theorem sendQueued_flow_le (s : Settings) (paused : Bool) (f : Factory)
    (g : FlowState) :
    (sendQueued s paused f g).flow.metricReceiversPaused
      ≤ g.metricReceiversPaused := by
  rw [sendQueued_eq]
  dsimp only
  split <;> simp

/-- The protocol's `sendDatapoint` never fires `pauseReceiving` and never
raises `metricReceiversPaused`. -/
theorem protocolSend_no_pause (s : Settings) (p : ProtoState) (f : Factory)
    (g : FlowState) (metric : Metric) (datapoint : Datapoint) :
    countOut Out.pauseReceivingFired
        (protocolSendDatapoint s p f g metric datapoint).outs = 0 ∧
    (protocolSendDatapoint s p f g metric datapoint).flow.metricReceiversPaused
      ≤ g.metricReceiversPaused := by
  unfold protocolSendDatapoint
  by_cases hp : p.paused = true
  · simp [hp, countOut]
  · rw [Bool.not_eq_true] at hp
    by_cases hq : hasQueuedDatapoints f = true
    · simp only [hp, hq, Bool.false_eq_true, if_false, if_true]
      exact ⟨sendQueued_no_pause s false (enqueue f metric datapoint) g,
             sendQueued_flow_le s false (enqueue f metric datapoint) g⟩
    · rw [Bool.not_eq_true] at hq
      refine ⟨?_, ?_⟩
      · simp only [hp, hq, Bool.false_eq_true, if_false]
        simp [countOut, checkQueue]
      · simp [hp, hq]

/-- The factory's `sendDatapoint` never fires `pauseReceiving` and never
raises `metricReceiversPaused`. -/
theorem factorySend_no_pause (s : Settings) (f : Factory) (g : FlowState)
    (metric : Metric) (datapoint : Datapoint) :
    countOut Out.pauseReceivingFired
        (factorySendDatapoint s f g metric datapoint).outs = 0 ∧
    (factorySendDatapoint s f g metric datapoint).flow.metricReceiversPaused
      ≤ g.metricReceiversPaused := by
  unfold factorySendDatapoint
  by_cases hfull : s.MAX_QUEUE_SIZE ≤ f.queue.length
  · simp [hfull, countOut]
  · simp only [if_neg hfull]
    cases hc : f.connectedProtocol with
    | none => simp [countOut]
    | some p =>
        exact protocolSend_no_pause s p _ g metric datapoint

/-- C3 counterexample: with `USE_FLOW_CONTROL` enabled, an enqueue
(through `CarbonClientFactory.sendDatapoint` on an unconnected session)
that brings the queue up to `MAX_QUEUE_SIZE = 2` fires no event at all —
in particular no `pauseReceiving` — and leaves `metricReceiversPaused`
false. -/
theorem C3_counterexample :
    (Settings.mk 2 3 true).USE_FLOW_CONTROL = true ∧
    (Settings.mk 2 3 true).MAX_QUEUE_SIZE ≤
      (factorySendDatapoint ⟨2, 3, true⟩
          (Factory.mk [("a", (1, 1))] none 0 0 0 0 0) ⟨false⟩ "b" (2, 2)).factory.queue.length ∧
    (factorySendDatapoint ⟨2, 3, true⟩
        (Factory.mk [("a", (1, 1))] none 0 0 0 0 0) ⟨false⟩ "b" (2, 2)).outs = [] ∧
    (factorySendDatapoint ⟨2, 3, true⟩
        (Factory.mk [("a", (1, 1))] none 0 0 0 0 0) ⟨false⟩ "b" (2, 2)).flow.metricReceiversPaused
      = false := by
  refine ⟨rfl, ?_, ?_, ?_⟩ <;> simp [factorySendDatapoint, enqueue]

/-- C3 (amended): the client module never fires `pauseReceiving` and
never sets `metricReceiversPaused`: every `CarbonClientFactory.sendDatapoint`
and every `CarbonClientProtocol.sendQueued` emits zero `pauseReceiving`
events and can only leave `metricReceiversPaused` at or below its previous
value (`sendQueued` may clear it, nothing sets it). `enqueue` itself only
appends to the queue. -/
theorem C3_no_pause_event (s : Settings) (f : Factory) (g : FlowState)
    (paused : Bool) (metric : Metric) (datapoint : Datapoint) :
    countOut Out.pauseReceivingFired
        (factorySendDatapoint s f g metric datapoint).outs = 0 ∧
    (factorySendDatapoint s f g metric datapoint).flow.metricReceiversPaused
        ≤ g.metricReceiversPaused ∧
    countOut Out.pauseReceivingFired (sendQueued s paused f g).outs = 0 ∧
    (sendQueued s paused f g).flow.metricReceiversPaused
        ≤ g.metricReceiversPaused ∧
    (enqueue f metric datapoint).queue = f.queue ++ [(metric, datapoint)] := by
  refine ⟨(factorySend_no_pause s f g metric datapoint).1,
          (factorySend_no_pause s f g metric datapoint).2,
          sendQueued_no_pause s paused f g,
          sendQueued_flow_le s paused f g, rfl⟩

/-- C5: `takeSomeFromQueue` detaches the first
`min(MAX_DATAPOINTS_PER_MESSAGE, len(queue))` entries in FIFO order and
leaves exactly the rest: the old queue is the returned batch followed by
the new queue, and the batch length never exceeds
`MAX_DATAPOINTS_PER_MESSAGE`. -/
theorem C5_takeSomeFromQueue_fifo (s : Settings) (f : Factory) :
    (takeSomeFromQueue s f).1 ++ (takeSomeFromQueue s f).2.queue = f.queue ∧
    (takeSomeFromQueue s f).1 = f.queue.take s.MAX_DATAPOINTS_PER_MESSAGE ∧
    (takeSomeFromQueue s f).2.queue = f.queue.drop s.MAX_DATAPOINTS_PER_MESSAGE ∧
    (takeSomeFromQueue s f).1.length
      = min s.MAX_DATAPOINTS_PER_MESSAGE f.queue.length ∧
    (takeSomeFromQueue s f).1.length ≤ s.MAX_DATAPOINTS_PER_MESSAGE := by
  refine ⟨List.take_append_drop _ _, rfl, rfl, ?_, ?_⟩
  · simp [takeSomeFromQueue]
  · simpa [takeSomeFromQueue] using
      List.length_take_le s.MAX_DATAPOINTS_PER_MESSAGE f.queue

/-- C6: with a connected, unpaused protocol, an empty queue and a queue
that is not full, `CarbonClientFactory.sendDatapoint` writes exactly one
frame carrying the one-element batch `[(metric, datapoint)]` serialized
with the highest pickle protocol version, increments `sent` (and
`attemptedRelays`) by 1, and leaves the queue empty. The `queueEmpty`
deferred also fires, from `checkQueue` on the still-empty queue. -/
theorem C6_direct_send (s : Settings) (p : ProtoState) (f : Factory)
    (g : FlowState) (metric : Metric) (datapoint : Datapoint)
    (hp : f.connectedProtocol = some p) (hpause : p.paused = false)
    (hq : f.queue = []) (hfull : f.queue.length < s.MAX_QUEUE_SIZE) :
    factorySendDatapoint s f g metric datapoint =
      ⟨{ f with attemptedRelays := f.attemptedRelays + 1, sent := f.sent + 1 },
       g,
       [Out.frame (pickle_dumps [(metric, datapoint)] PICKLE_HIGHEST_PROTOCOL),
        Out.queueEmptyFired]⟩ := by
  have hmax : s.MAX_QUEUE_SIZE ≠ 0 := by
    have h0 := hfull; rw [hq] at h0; omega
  simp [factorySendDatapoint, hp, protocolSendDatapoint, hpause,
    hasQueuedDatapoints, hq, checkQueue, hmax]

/-- Witness for C6 at a concrete connected idle session. -/
theorem C6_witness :
    (Factory.mk [] (some ⟨false, true⟩) 0 0 0 0 0).connectedProtocol
        = some ⟨false, true⟩ ∧
    (ProtoState.mk false true).paused = false ∧
    (Factory.mk [] (some ⟨false, true⟩) 0 0 0 0 0).queue = [] ∧
    (Factory.mk [] (some ⟨false, true⟩) 0 0 0 0 0).queue.length < 4 ∧
    factorySendDatapoint ⟨4, 3, false⟩
        (Factory.mk [] (some ⟨false, true⟩) 0 0 0 0 0) ⟨false⟩ "a.b" (100, 15) =
      ⟨Factory.mk [] (some ⟨false, true⟩) 1 0 0 0 1, ⟨false⟩,
       [Out.frame (pickle_dumps [("a.b", (100, 15))] PICKLE_HIGHEST_PROTOCOL),
        Out.queueEmptyFired]⟩ :=
  ⟨rfl, rfl, rfl, by decide,
   C6_direct_send ⟨4, 3, false⟩ ⟨false, true⟩
     (Factory.mk [] (some ⟨false, true⟩) 0 0 0 0 0) ⟨false⟩ "a.b" (100, 15)
     rfl rfl rfl (by decide)⟩

/-- C8: `WhisperDatabase.getMetadata` and `setMetadata` raise the
unsupported-metadata `ValueError` exactly for keys other than
`aggregationMethod` (the plugin's only supported key); `CeresDatabase`
performs no key validation, so its `getMetadata` and `setMetadata` never
raise that value-error (a missing key in `getMetadata` surfaces as a
`KeyError`, a different error). -/
theorem C8_metadata_keys (aggInfo : String → String) (metric key value : String)
    (metadata : List (String × String)) :
    raisesValueError (whisperGetMetadata aggInfo metric key)
        = !(key == "aggregationMethod") ∧
    raisesValueError (whisperSetMetadata metric key value)
        = !(key == "aggregationMethod") ∧
    raisesValueError (ceresGetMetadata metadata key) = false ∧
    raisesValueError (ceresSetMetadata metadata key value) = false := by
  refine ⟨?_, ?_, ?_, ?_⟩
  · by_cases hk : key = "aggregationMethod" <;>
      simp [whisperGetMetadata, hk, raisesValueError]
  · by_cases hk : key = "aggregationMethod" <;>
      simp [whisperSetMetadata, hk, raisesValueError]
  · cases h : metadata.lookup key <;> simp [ceresGetMetadata, h, raisesValueError]
  · by_cases h : (metadata.lookup key).isSome <;>
      simp [ceresSetMetadata, h, raisesValueError]

/-- C9: `WhisperDatabase.validateArchiveList` raises a value-error
carrying the external validator's human-readable reason exactly when that
validator reports the retentions incompatible, and returns normally
otherwise; the base implementation (inherited by Ceres) accepts every
archive list. -/
theorem C9_validateArchiveList (wValidate : ArchiveList → Option String)
    (archiveList : ArchiveList) :
    errorReason (whisperValidateArchiveList wValidate archiveList)
        = wValidate archiveList ∧
    dbOk (whisperValidateArchiveList wValidate archiveList)
        = (wValidate archiveList).isNone ∧
    baseValidateArchiveList archiveList = .ok () := by
  refine ⟨?_, ?_, rfl⟩
  · cases h : wValidate archiveList <;>
      simp [whisperValidateArchiveList, h, errorReason]
  · cases h : wValidate archiveList <;>
      simp [whisperValidateArchiveList, h, dbOk]


/-- The drain loop never fires `resumeReceiving` (only `sendQueued`'s
flow-control epilogue does). -/
theorem sendQueuedLoop_no_resume (s : Settings) (paused : Bool) (fuel : Nat)
    (f : Factory) :
    countOut Out.resumeReceivingFired (sendQueuedLoop s paused fuel f).2 = 0 := by
  rw [countOut, List.countP_eq_zero]
  intro o ho
  rcases sendQueuedLoop_outs s paused fuel f o ho with h | ⟨fr, h⟩ <;> simp [h]

/-- C4 counterexample: with `USE_FLOW_CONTROL` disabled, a `sendQueued`
run during which `metricReceiversPaused` is set and the queue size (0) is
below `LowWatermark = 0.8 × MAX_QUEUE_SIZE = 8` fires nothing and leaves
the flag set: the claim's unconditional resume does not happen. -/
theorem C4_counterexample :
    (FlowState.mk true).metricReceiversPaused = true ∧
    belowLowWatermark ⟨10, 3, false⟩
      (queueSize (Factory.mk [] (some ⟨false, true⟩) 0 0 0 0 0)) = true ∧
    (sendQueued ⟨10, 3, false⟩ false
        (Factory.mk [] (some ⟨false, true⟩) 0 0 0 0 0) ⟨true⟩).outs = [] ∧
    (sendQueued ⟨10, 3, false⟩ false
        (Factory.mk [] (some ⟨false, true⟩) 0 0 0 0 0) ⟨true⟩).flow.metricReceiversPaused
      = true := by
  refine ⟨rfl, by decide, ?_, ?_⟩ <;>
    simp [sendQueued_eq, sendQueuedLoop, hasQueuedDatapoints, belowLowWatermark]

/-- C4 (amended): at the end of a `sendQueued` drain — the check runs
once, after the while-loop, on the drained queue size — if
`USE_FLOW_CONTROL` is enabled, `metricReceiversPaused` is set and the
queue size is below `LowWatermark = 0.8 × MAX_QUEUE_SIZE`, then the
session fires `resumeReceiving` exactly once and the flag is cleared. -/
theorem C4_resume_below_watermark (s : Settings) (paused : Bool)
    (f : Factory) (g : FlowState)
    (hfc : s.USE_FLOW_CONTROL = true)
    (hrp : g.metricReceiversPaused = true)
    (hwm : belowLowWatermark s
        (queueSize (sendQueuedLoop s paused f.queue.length f).1) = true) :
    (sendQueued s paused f g).flow.metricReceiversPaused = false ∧
    countOut Out.resumeReceivingFired (sendQueued s paused f g).outs = 1 := by
  rw [sendQueued_eq]
  dsimp only
  rw [hfc, hrp, hwm]
  constructor
  · simp
  · rw [countOut_append, sendQueuedLoop_no_resume]
    simp [countOut]

/-- Witness for C4 at a concrete draining session. -/
theorem C4_witness :
    (Settings.mk 10 3 true).USE_FLOW_CONTROL = true ∧
    (FlowState.mk true).metricReceiversPaused = true ∧
    belowLowWatermark ⟨10, 3, true⟩
      (queueSize (sendQueuedLoop ⟨10, 3, true⟩ false
        (Factory.mk [("m", (1, 1))] (some ⟨false, true⟩) 0 0 0 0 0).queue.length
        (Factory.mk [("m", (1, 1))] (some ⟨false, true⟩) 0 0 0 0 0)).1) = true ∧
    ((sendQueued ⟨10, 3, true⟩ false
        (Factory.mk [("m", (1, 1))] (some ⟨false, true⟩) 0 0 0 0 0)
        ⟨true⟩).flow.metricReceiversPaused = false ∧
      countOut Out.resumeReceivingFired
        (sendQueued ⟨10, 3, true⟩ false
          (Factory.mk [("m", (1, 1))] (some ⟨false, true⟩) 0 0 0 0 0)
          ⟨true⟩).outs = 1) :=
  ⟨rfl, rfl, by decide,
   C4_resume_below_watermark ⟨10, 3, true⟩ false
     (Factory.mk [("m", (1, 1))] (some ⟨false, true⟩) 0 0 0 0 0) ⟨true⟩
     rfl rfl (by decide)⟩

/-- On an unpaused drain of a non-empty queue, the `queueEmpty` deferred
fires exactly once: `checkQueue` runs after every batch but finds the
queue empty only after the last one. -/
theorem sendQueuedLoop_queueEmpty_once (s : Settings) (fuel : Nat) :
    ∀ f : Factory, 1 ≤ s.MAX_DATAPOINTS_PER_MESSAGE →
      f.queue ≠ [] → f.queue.length ≤ fuel →
      countOut Out.queueEmptyFired (sendQueuedLoop s false fuel f).2 = 1 := by
  induction fuel with
  | zero =>
      intro f hM hne hlen
      exact absurd (List.length_eq_zero.mp (Nat.le_zero.mp hlen)) hne
  | succ n ih =>
      intro f hM hne hlen
      have hcond : (!false && hasQueuedDatapoints f) = true := by
        simp [hasQueuedDatapoints, hne]
      rw [sendQueuedLoop_sending s false n f hcond]
      by_cases hd : (afterBatch s f).queue = []
      · rw [sendQueuedLoop_empty s false n _ hd]
        simp [countOut, checkQueue, hd]
      · have h1 : checkQueue (afterBatch s f) = [] := by
          simp only [checkQueue, List.isEmpty_iff]
          simp [hd]
        have h2 : countOut Out.queueEmptyFired
            (sendQueuedLoop s false n (afterBatch s f)).2 = 1 := by
          refine ih (afterBatch s f) hM hd ?_
          have hdrop : (afterBatch s f).queue.length
              = f.queue.length - s.MAX_DATAPOINTS_PER_MESSAGE := by
            simp [afterBatch]
          omega
        rw [h1]
        simpa [countOut] using h2

/-- C7 counterexample: a direct send on a connected, unpaused session
whose queue is empty before and stays empty throughout nonetheless fires
the `queueEmpty` deferred (client.py:62-66 calls `checkQueue` after a
direct send, and `checkQueue` fires whenever the queue is empty). -/
theorem C7_counterexample :
    (Factory.mk [] (some ⟨false, true⟩) 0 0 0 0 0).queue = [] ∧
    (protocolSendDatapoint ⟨4, 3, false⟩ ⟨false, true⟩
        (Factory.mk [] (some ⟨false, true⟩) 0 0 0 0 0) ⟨false⟩ "m" (1, 1)).factory.queue
      = [] ∧
    countOut Out.queueEmptyFired
      (protocolSendDatapoint ⟨4, 3, false⟩ ⟨false, true⟩
        (Factory.mk [] (some ⟨false, true⟩) 0 0 0 0 0) ⟨false⟩ "m" (1, 1)).outs
      = 1 := by
  refine ⟨rfl, ?_, ?_⟩ <;>
    simp [protocolSendDatapoint, hasQueuedDatapoints, checkQueue, countOut]

/-- C7 (amended): the `queueEmpty` deferred fires on every `checkQueue`
call that finds the queue empty: exactly once per unpaused
`CarbonClientProtocol.sendDatapoint` — at the non-empty-to-empty
transition when a drain happens, but also when the queue was already
empty and a direct send occurred (given a positive batch size, so the
drain loop terminates as in the source). -/
theorem C7_queueEmpty_once_per_send (s : Settings) (p : ProtoState)
    (f : Factory) (g : FlowState) (metric : Metric) (datapoint : Datapoint)
    (hpause : p.paused = false) (hM : 1 ≤ s.MAX_DATAPOINTS_PER_MESSAGE) :
    countOut Out.queueEmptyFired
      (protocolSendDatapoint s p f g metric datapoint).outs = 1 := by
  unfold protocolSendDatapoint
  by_cases hq : f.queue = []
  · simp [hpause, hasQueuedDatapoints, hq, countOut, checkQueue]
  · have hq' : hasQueuedDatapoints f = true := by
      simp [hasQueuedDatapoints, hq]
    simp only [hpause, hq', Bool.false_eq_true, if_false, if_true]
    rw [sendQueued_eq]
    dsimp only
    rw [countOut_append]
    have hne : (enqueue f metric datapoint).queue ≠ [] := by
      simp [enqueue]
    rw [sendQueuedLoop_queueEmpty_once s (enqueue f metric datapoint).queue.length
      (enqueue f metric datapoint) hM hne (le_refl _)]
    split <;> simp [countOut]

/-- Witness for C7 at a concrete unpaused session with one queued entry. -/
theorem C7_witness :
    (ProtoState.mk false true).paused = false ∧
    (1 : Nat) ≤ (Settings.mk 4 3 false).MAX_DATAPOINTS_PER_MESSAGE ∧
    countOut Out.queueEmptyFired
      (protocolSendDatapoint ⟨4, 3, false⟩ ⟨false, true⟩
        (Factory.mk [("a", (1, 1))] (some ⟨false, true⟩) 0 0 0 0 0)
        ⟨false⟩ "b" (2, 2)).outs = 1 :=
  ⟨rfl, by decide,
   C7_queueEmpty_once_per_send ⟨4, 3, false⟩ ⟨false, true⟩
     (Factory.mk [("a", (1, 1))] (some ⟨false, true⟩) 0 0 0 0 0)
     ⟨false⟩ "b" (2, 2) rfl (by decide)⟩

theorem lookupFactory_cons (k : Destination) (v : Factory)
    (rest : List (Destination × Factory)) (dest : Destination) :
    lookupFactory ((k, v) :: rest) dest =
      if k = dest then some v else lookupFactory rest dest := rfl

theorem updateFactory_cons (k : Destination) (v : Factory)
    (rest : List (Destination × Factory)) (d : Destination) (f : Factory) :
    updateFactory ((k, v) :: rest) d f =
      (if k = d then (k, f) else (k, v)) :: updateFactory rest d f := by
  by_cases hk : k = d <;> simp [updateFactory, hk]

/-- `updateFactory` replaces a value but never adds or removes a key:
whether a lookup succeeds is unchanged. -/
theorem lookupFactory_updateFactory_isSome (fs : List (Destination × Factory))
    (d d' : Destination) (f : Factory) :
    (lookupFactory (updateFactory fs d f) d').isSome
      = (lookupFactory fs d').isSome := by
  induction fs with
  | nil => rfl
  | cons kv rest ih =>
      rcases kv with ⟨k, v⟩
      rw [updateFactory_cons, lookupFactory_cons]
      by_cases hk : k = d
      · by_cases hd : k = d'
        · have hdd : d = d' := hk ▸ hd
          simp [hk, hdd, lookupFactory_cons]
        · have hdd : ¬(d = d') := fun h => hd (hk.trans h)
          simp [hk, hdd, lookupFactory_cons, ih]
      · by_cases hd : k = d'
        · have hdd : ¬(d' = d) := hd ▸ hk
          simp [hd, hdd, lookupFactory_cons, ih]
        · simp [hk, hd, lookupFactory_cons, ih]

theorem lookupFactory_updateFactory_none (fs : List (Destination × Factory))
    (d d' : Destination) (f : Factory) (h : lookupFactory fs d' = none) :
    lookupFactory (updateFactory fs d f) d' = none := by
  have hs := lookupFactory_updateFactory_isSome fs d d' f
  rw [h] at hs
  cases hx : lookupFactory (updateFactory fs d f) d' with
  | none => rfl
  | some y => rw [hx] at hs; simp at hs

/-- The manager loop finishes without `KeyError` exactly when every
routed destination has a registered factory. -/
theorem managerSendLoop_keyError_none (s : Settings) (metric : Metric)
    (datapoint : Datapoint) :
    ∀ (dests : List Destination) (fs : List (Destination × Factory)) (g : FlowState),
      ((managerSendLoop s metric datapoint fs g dests).keyError = none ↔
        ∀ dest ∈ dests, (lookupFactory fs dest).isSome = true) := by
  intro dests
  induction dests with
  | nil => intro fs g; simp [managerSendLoop]
  | cons d rest ih =>
      intro fs g
      cases hl : lookupFactory fs d with
      | none =>
          simp only [managerSendLoop, hl]
          constructor
          · intro h; simp at h
          · intro hall
            have h := hall d (List.mem_cons_self d rest)
            rw [hl] at h
            simp at h
      | some fac =>
          simp only [managerSendLoop, hl]
          rw [ih]
          constructor
          · intro hall dest hdest
            rcases List.mem_cons.mp hdest with rfl | hdest
            · rw [hl]; rfl
            · have h := hall dest hdest
              rwa [lookupFactory_updateFactory_isSome] at h
          · intro hall dest hdest
            rw [lookupFactory_updateFactory_isSome]
            exact hall dest (List.mem_cons_of_mem _ hdest)

/-- When the destinations before `bad` all have factories and `bad` has
none, the manager loop performs exactly the sends for the prefix, then
aborts with the `KeyError` on `bad`; the destinations after `bad` receive
nothing. -/
theorem managerSendLoop_error_prefix (s : Settings) (metric : Metric)
    (datapoint : Datapoint) (bad : Destination) (post : List Destination) :
    ∀ (pre : List Destination) (fs : List (Destination × Factory)) (g : FlowState),
      (∀ p ∈ pre, (lookupFactory fs p).isSome = true) →
      lookupFactory fs bad = none →
      managerSendLoop s metric datapoint fs g (pre ++ bad :: post) =
        ⟨(managerSendLoop s metric datapoint fs g pre).factories,
         (managerSendLoop s metric datapoint fs g pre).flow,
         (managerSendLoop s metric datapoint fs g pre).outs, some bad⟩ := by
  intro pre
  induction pre with
  | nil =>
      intro fs g hpre hbad
      simp [managerSendLoop, hbad]
  | cons d rest ih =>
      intro fs g hpre hbad
      have hd := hpre d (List.mem_cons_self d rest)
      cases hl : lookupFactory fs d with
      | none => rw [hl] at hd; simp at hd
      | some fac =>
          have hpre' : ∀ p ∈ rest,
              (lookupFactory (updateFactory fs d
                (factorySendDatapoint s fac g metric datapoint).factory) p).isSome
                = true := by
            intro p hp
            rw [lookupFactory_updateFactory_isSome]
            exact hpre p (List.mem_cons_of_mem _ hp)
          have hbad' := lookupFactory_updateFactory_none fs d bad
            (factorySendDatapoint s fac g metric datapoint).factory hbad
          simp only [List.cons_append, managerSendLoop, hl, List.append_eq]
          rw [ih _ _ hpre' hbad']

/-- C10: `CarbonClientManager.sendDatapoint` reaches every destination the
router returns only when each has a registered client factory; the first
destination without one raises `KeyError` (carried in `keyError`), the
destinations routed before it were already sent to, and the destinations
after it receive nothing — the result is exactly that of processing the
prefix, plus the error. -/
theorem C10_manager_missing_factory (s : Settings)
    (getDestinations : Metric → List Destination)
    (fs : List (Destination × Factory)) (g : FlowState)
    (metric : Metric) (datapoint : Datapoint)
    (pre post : List Destination) (bad : Destination)
    (hpre : ∀ p ∈ pre, (lookupFactory fs p).isSome = true)
    (hbad : lookupFactory fs bad = none) :
    ((managerSendDatapoint s getDestinations fs g metric datapoint).keyError = none ↔
      ∀ dest ∈ getDestinations metric, (lookupFactory fs dest).isSome = true) ∧
    (getDestinations metric = pre ++ bad :: post →
      managerSendDatapoint s getDestinations fs g metric datapoint =
        ⟨(managerSendLoop s metric datapoint fs g pre).factories,
         (managerSendLoop s metric datapoint fs g pre).flow,
         (managerSendLoop s metric datapoint fs g pre).outs, some bad⟩) := by
  constructor
  · exact managerSendLoop_keyError_none s metric datapoint (getDestinations metric) fs g
  · intro hroute
    unfold managerSendDatapoint
    rw [hroute]
    exact managerSendLoop_error_prefix s metric datapoint bad post pre fs g hpre hbad

/-- Witness for C10: routing to a destination without a factory yields
the `KeyError` on exactly that destination. -/
theorem C10_witness :
    (managerSendDatapoint ⟨4, 3, false⟩
        (fun _ => [("h1", 1, "x"), ("h2", 2, "y"), ("h3", 3, "z")])
        [(("h1", 1, "x"), Factory.mk [] none 0 0 0 0 0)] ⟨false⟩ "m" (1, 1)).keyError
      = some ("h2", 2, "y") := by
  have h := (C10_manager_missing_factory ⟨4, 3, false⟩
      (fun _ => [("h1", 1, "x"), ("h2", 2, "y"), ("h3", 3, "z")])
      [(("h1", 1, "x"), Factory.mk [] none 0 0 0 0 0)] ⟨false⟩ "m" (1, 1)
      [("h1", 1, "x")] [("h3", 3, "z")] ("h2", 2, "y")
      (by decide) (by decide)).2 rfl
  rw [h]
